import Mathlib

/-!
Shallow embedding of `chapter-02/smart_home_agents.py`: the smart-home
multi-agent system (message passing, ThermostatAgent hysteresis control,
EnergyAgent consumption/coordination logic), together with theorems
settling the specification claims about it.

Modelling conventions:
* Python floats are modelled as `ℚ`; the random per-tick temperature deltas
  (`random.uniform(...)`) become an explicit parameter `δ : ℚ` of the tick.
* A Python dict used as message `content` or `status` becomes an association
  list `List (String × Value)`; `dict.get`/`in`/`[...]` become `List.lookup`.
* A tick's / handler's outgoing `broadcast_message` / `send_message` calls
  are returned as explicit command lists; delivery through the registry
  (`other_agents`) is a separate function `send_message` over a `Network`.
* The wall-clock hour read by the EnergyAgent is an explicit input `hour : ℕ`.
-/

namespace SmartHome

/-- The `MessageType` enum of the source. -/
inductive MessageType where
  | status_update
  | request
  | response
  | alert
  | coordination
deriving DecidableEq, Repr

/-- Structured values stored in a message `content` / `status` dict.
`numMap` covers the nested per-appliance dict published in the
EnergyAgent's status snapshot. -/
inductive Value where
  | bool (b : Bool)
  | num (q : ℚ)
  | str (s : String)
  | numMap (m : List (String × ℚ))
deriving DecidableEq, Repr

/-- A message/status `content` dict: association list keyed by strings. -/
abbrev Content := List (String × Value)

/-- Python truthiness of a stored value (`if self.energy_efficiency_mode:`,
`if status.get("heating"):`). -/
def Value.truthy : Value → Bool
  | .bool b => b
  | .num q => decide (q ≠ 0)
  | .str s => decide (s ≠ "")
  | .numMap m => decide (m ≠ [])

/-- Numeric reading of a stored value, as Python arithmetic would coerce it
(`True == 1`, `False == 0`).  A `str`/`numMap` value in an arithmetic
position raises `TypeError` in Python; the claims only ever exercise
numeric values, so those cases are mapped to `0` here and every theorem
that stores a request value into `target_temp` hypothesises a numeric
value. -/
def Value.toNum : Value → ℚ
  | .num q => q
  | .bool b => if b then 1 else 0
  | .str _ => 0
  | .numMap _ => 0

/-- The `Message` dataclass of the source. -/
structure Message where
  sender : String
  recipient : String
  message_type : MessageType
  content : Content
  timestamp : ℚ
  message_id : String
deriving DecidableEq, Repr

/-- An outgoing `send_message(recipient, type, content)` call made by a
handler, before delivery through the registry. -/
structure SendCmd where
  recipient : String
  message_type : MessageType
  content : Content
deriving DecidableEq, Repr

/-- The sending agent's view of its registry `other_agents`: each registered
peer's name together with that peer's mailbox (`message_queue`). -/
abbrev Network := List (String × List Message)

/-- Append a message to the mailbox of the named registered peer. -/
def enqueueAt : Network → String → Message → Network
  | [], _, _ => []
  | (n, q) :: rest, name, msg =>
    if n = name then (n, q ++ [msg]) :: rest
    else (n, q) :: enqueueAt rest name msg

/-- `SmartHomeAgent.send_message`: if the recipient is not registered the
call only logs and returns (no enqueue, no exception); otherwise a fresh
`Message` is appended to the recipient's mailbox. -/
def send_message (net : Network) (sender recipient : String)
    (t : MessageType) (c : Content) (ts : ℚ) (mid : String) : Network :=
  if (net.lookup recipient).isSome then
    enqueueAt net recipient
      { sender := sender, recipient := recipient, message_type := t,
        content := c, timestamp := ts, message_id := mid }
  else net

/-- Rounding to one decimal place (`round(x, 1)` on the thermostat's
published `current_temp`).  Python's float banker's rounding differs at
exact ties; no claim depends on the tie case. -/
def round1 (q : ℚ) : ℚ := ((round (10 * q) : ℤ) : ℚ) / 10

/-- Rounding to two decimal places (`round(x, 2)` in the energy status). -/
def round2 (q : ℚ) : ℚ := ((round (100 * q) : ℤ) : ℚ) / 100

/-! ## ThermostatAgent -/

/-- The private state of a `ThermostatAgent`, plus its published `status`
snapshot.  `energy_efficiency_mode` is stored as the raw assigned `Value`
because Python assigns `message.content["energy_efficiency_mode"]`
verbatim and only ever tests its truthiness. -/
structure ThermoState where
  current_temp : ℚ
  target_temp : ℚ
  heating : Bool
  cooling : Bool
  energy_efficiency_mode : Value
  status : Content
deriving DecidableEq, Repr

/-- `ThermostatAgent.__init__`. -/
def initThermostat : ThermoState :=
  { current_temp := 72, target_temp := 72, heating := false, cooling := false,
    energy_efficiency_mode := .bool false, status := [] }

/-- The status snapshot published at the end of every thermostat tick. -/
def thermoSnapshot (cur target : ℚ) (h c : Bool) (eff : Value) : Content :=
  [("current_temp", .num (round1 cur)),
   ("target_temp", .num target),
   ("heating", .bool h),
   ("cooling", .bool c),
   ("energy_efficiency_mode", eff)]

/-- The simulated temperature after the random-drift step of a tick:
heating adds the sampled delta (`uniform(0.1, 0.3)`), cooling subtracts it
(`uniform(0.1, 0.3)`), otherwise it drifts by the sampled delta
(`uniform(-0.1, 0.1)`).  `δ` is the sampled value. -/
def thermoNewCurrent (st : ThermoState) (δ : ℚ) : ℚ :=
  if st.heating then st.current_temp + δ
  else if st.cooling then st.current_temp - δ
  else st.current_temp + δ

/-- `temp_diff = self.target_temp - self.current_temp`, computed after the
temperature-simulation step of the tick. -/
def tempDiff (st : ThermoState) (δ : ℚ) : ℚ :=
  st.target_temp - thermoNewCurrent st δ

/-- `ThermostatAgent.update_status`: one tick with sampled delta `δ`.
Returns the new state and the list of `broadcast_message` calls made
(type and content of each broadcast). -/
def thermoUpdateStatus (st : ThermoState) (δ : ℚ) :
    ThermoState × List (MessageType × Content) :=
  if tempDiff st δ > 1 ∧ st.heating = false then
    ({ st with current_temp := thermoNewCurrent st δ, heating := true, cooling := false,
               status := thermoSnapshot (thermoNewCurrent st δ) st.target_temp true false st.energy_efficiency_mode },
     [(MessageType.status_update,
       [("heating_started", Value.bool true),
        ("current_temp", Value.num (thermoNewCurrent st δ)),
        ("target_temp", Value.num st.target_temp)])])
  else if tempDiff st δ < -1 ∧ st.cooling = false then
    ({ st with current_temp := thermoNewCurrent st δ, heating := false, cooling := true,
               status := thermoSnapshot (thermoNewCurrent st δ) st.target_temp false true st.energy_efficiency_mode },
     [(MessageType.status_update,
       [("cooling_started", Value.bool true),
        ("current_temp", Value.num (thermoNewCurrent st δ)),
        ("target_temp", Value.num st.target_temp)])])
  else if |tempDiff st δ| < 1/2 then
    if st.heating || st.cooling then
      ({ st with current_temp := thermoNewCurrent st δ, heating := false, cooling := false,
                 status := thermoSnapshot (thermoNewCurrent st δ) st.target_temp false false st.energy_efficiency_mode },
       [(MessageType.status_update,
         [("climate_control_off", Value.bool true),
          ("current_temp", Value.num (thermoNewCurrent st δ))])])
    else
      ({ st with current_temp := thermoNewCurrent st δ,
                 status := thermoSnapshot (thermoNewCurrent st δ) st.target_temp st.heating st.cooling st.energy_efficiency_mode },
       [])
  else
    ({ st with current_temp := thermoNewCurrent st δ,
               status := thermoSnapshot (thermoNewCurrent st δ) st.target_temp st.heating st.cooling st.energy_efficiency_mode },
     [])

/-- `ThermostatAgent.handle_message`: reacts only to `REQUEST` messages.
`"set_temperature" in content` takes priority (an `if`/`elif` chain);
an unrecognised request falls through silently (there is no `else`
branch in the source).  Returns the new state and the `send_message`
calls made. -/
def thermoHandleMessage (st : ThermoState) (m : Message) :
    ThermoState × List SendCmd :=
  if m.message_type = MessageType.request then
    match m.content.lookup "set_temperature" with
    | some v =>
      ({ st with target_temp := v.toNum },
       [{ recipient := m.sender, message_type := MessageType.response,
          content := [("temperature_set", Value.bool true), ("new_target", v)] }])
    | none =>
      match m.content.lookup "energy_efficiency_mode" with
      | some v =>
        ({ st with energy_efficiency_mode := v,
                   target_temp :=
             if v.truthy then
               if st.heating then st.target_temp - 2
               else if st.cooling then st.target_temp + 2
               else st.target_temp
             else st.target_temp },
         [])
      | none => (st, [])
  else (st, [])

/-- Handle a request and deliver the resulting replies through the agent's
registry (`other_agents`): a reply to an unregistered sender is dropped by
`send_message`. -/
def thermoHandleAndDeliver (st : ThermoState) (net : Network) (m : Message)
    (ts : ℚ) (mid : String) : ThermoState × Network :=
  ((thermoHandleMessage st m).1,
   (thermoHandleMessage st m).2.foldl (fun n cmd =>
     send_message n "Thermostat" cmd.recipient cmd.message_type cmd.content ts mid) net)

/-- One observable event in a thermostat run: a tick with sampled delta, or
the handling of one delivered message. -/
inductive ThermoEvent where
  | tick (δ : ℚ)
  | deliver (m : Message)

/-- State transition of a `ThermoEvent`. -/
def thermoStep (st : ThermoState) : ThermoEvent → ThermoState
  | .tick δ => (thermoUpdateStatus st δ).1
  | .deliver m => (thermoHandleMessage st m).1

/-- A thermostat run: fold a sequence of events from a start state. -/
def thermoRun (st : ThermoState) (evs : List ThermoEvent) : ThermoState :=
  evs.foldl thermoStep st

/-! ## EnergyAgent -/

/-- The private state of an `EnergyAgent`, plus its published snapshot. -/
structure EnergyState where
  total_consumption : ℚ
  peak_hours : Bool
  energy_saving_mode : Bool
  appliance_usage : List (String × ℚ)
  status : Content
deriving DecidableEq, Repr

/-- `EnergyAgent.__init__`. -/
def initEnergy : EnergyState :=
  { total_consumption := 0, peak_hours := false, energy_saving_mode := false,
    appliance_usage := [], status := [] }

/-- Truthiness of `snapshot.get(key)` (absent key gives `None`, falsy). -/
def statusShows (c : Content) (k : String) : Bool :=
  match c.lookup k with
  | some v => v.truthy
  | none => false

/-- The per-tick consumption computed by `EnergyAgent.update_status` from the
Thermostat's last published status snapshot (`none` when no agent named
"Thermostat" is registered): base 5.0, plus 15.0 if the snapshot shows
heating, else plus 12.0 if it shows cooling. -/
def consumptionOf (thermoStatus : Option Content) : ℚ :=
  5 + match thermoStatus with
      | none => 0
      | some c =>
        if statusShows c "heating" then 15
        else if statusShows c "cooling" then 12
        else 0

/-- Python dict assignment `d[k] = v` on an association list. -/
def setKey : List (String × ℚ) → String → ℚ → List (String × ℚ)
  | [], k, v => [(k, v)]
  | (k', v') :: rest, k, v =>
    if k' = k then (k, v) :: rest else (k', v') :: setKey rest k v

/-- The Coordination broadcast content emitted by the energy-saving branch. -/
def energySavingContent (consumption : ℚ) : Content :=
  [("energy_saving_request", Value.bool true),
   ("reason", Value.str "peak_hours_high_consumption"),
   ("current_consumption", Value.num consumption)]

/-- `16 <= current_hour <= 20` — the peak-hours test of the source (the
comment there reads "4 PM to 8 PM"; note the bound is inclusive of 20). -/
def peakHours (hour : ℕ) : Bool := decide (16 ≤ hour ∧ hour ≤ 20)

/-- The guard of the energy-saving branch:
`self.peak_hours and consumption > 20.0 and not self.energy_saving_mode`. -/
def energyTrigger (st : EnergyState) (hour : ℕ) (thermoStatus : Option Content) : Bool :=
  peakHours hour && decide (consumptionOf thermoStatus > 20) && !st.energy_saving_mode

/-- `EnergyAgent.update_status`: one tick, given the current wall-clock hour
and the Thermostat's last published status snapshot.  Returns the new
state and the list of `broadcast_message` calls made. -/
def energyUpdateStatus (st : EnergyState) (hour : ℕ)
    (thermoStatus : Option Content) : EnergyState × List (MessageType × Content) :=
  ({ total_consumption := st.total_consumption + consumptionOf thermoStatus / 60,
     peak_hours := peakHours hour,
     energy_saving_mode :=
       if energyTrigger st hour thermoStatus then true else st.energy_saving_mode,
     appliance_usage := setKey st.appliance_usage "hvac" (consumptionOf thermoStatus - 5),
     status :=
       [("total_consumption",
         Value.num (round2 (st.total_consumption + consumptionOf thermoStatus / 60))),
        ("current_consumption", Value.num (round2 (consumptionOf thermoStatus))),
        ("peak_hours", Value.bool (peakHours hour)),
        ("energy_saving_mode",
         Value.bool (if energyTrigger st hour thermoStatus then true else st.energy_saving_mode)),
        ("appliance_usage",
         Value.numMap (setKey st.appliance_usage "hvac" (consumptionOf thermoStatus - 5)))] },
   if energyTrigger st hour thermoStatus then
     [(MessageType.coordination, energySavingContent (consumptionOf thermoStatus))]
   else [])

/-- A run of the EnergyAgent over a list of tick inputs (hour, thermostat
snapshot), accumulating the broadcasts of every tick. -/
def energyRun (st : EnergyState) :
    List (ℕ × Option Content) → EnergyState × List (MessageType × Content)
  | [] => (st, [])
  | (hour, ts) :: rest =>
    ((energyRun (energyUpdateStatus st hour ts).1 rest).1,
     (energyUpdateStatus st hour ts).2 ++ (energyRun (energyUpdateStatus st hour ts).1 rest).2)

/-! ## Helper lemmas -/

/-- `handle_message` never touches the heating flag. -/
theorem thermoHandleMessage_heating (st : ThermoState) (m : Message) :
    (thermoHandleMessage st m).1.heating = st.heating := by
  unfold thermoHandleMessage
  split
  · split
    · rfl
    · split
      · rfl
      · rfl
  · rfl

/-- `handle_message` never touches the cooling flag. -/
theorem thermoHandleMessage_cooling (st : ThermoState) (m : Message) :
    (thermoHandleMessage st m).1.cooling = st.cooling := by
  unfold thermoHandleMessage
  split
  · split
    · rfl
    · split
      · rfl
      · rfl
  · rfl

/-- A tick preserves mutual exclusion of the heating/cooling flags. -/
theorem thermoUpdateStatus_exclusive (st : ThermoState) (δ : ℚ)
    (h : (st.heating && st.cooling) = false) :
    ((thermoUpdateStatus st δ).1.heating && (thermoUpdateStatus st δ).1.cooling) = false := by
  unfold thermoUpdateStatus
  split
  · rfl
  · split
    · rfl
    · split
      · split
        · rfl
        · exact h
      · exact h

/-- Computation of the `set_temperature` branch of `handle_message`. -/
theorem thermoHandleMessage_set_eq (st : ThermoState) (m : Message) (v : Value)
    (ht : m.message_type = MessageType.request)
    (hs : m.content.lookup "set_temperature" = some v) :
    thermoHandleMessage st m =
      ({ st with target_temp := v.toNum },
       [{ recipient := m.sender, message_type := MessageType.response,
          content := [("temperature_set", Value.bool true), ("new_target", v)] }]) := by
  unfold thermoHandleMessage
  rw [if_pos ht, hs]

/-! ## Claim theorems -/

/-- C1: for every reachable state of a ThermostatAgent (any sequence of
ticks and handled messages starting from the initial state with
heating = false and cooling = false), heating and cooling are never both
true simultaneously. -/
theorem thermostat_heating_cooling_exclusive (evs : List ThermoEvent) :
    ((thermoRun initThermostat evs).heating &&
      (thermoRun initThermostat evs).cooling) = false := by
  have key : ∀ (l : List ThermoEvent) (st : ThermoState),
      (st.heating && st.cooling) = false →
      ((thermoRun st l).heating && (thermoRun st l).cooling) = false := by
    intro l
    induction l with
    | nil => intro st h; exact h
    | cons e rest ih =>
      intro st h
      have hrun : thermoRun st (e :: rest) = thermoRun (thermoStep st e) rest := rfl
      rw [hrun]
      refine ih (thermoStep st e) ?_
      cases e with
      | tick δ => exact thermoUpdateStatus_exclusive st δ h
      | deliver m =>
        show ((thermoHandleMessage st m).1.heating &&
          (thermoHandleMessage st m).1.cooling) = false
        rw [thermoHandleMessage_heating, thermoHandleMessage_cooling]
        exact h
  exact key evs initThermostat rfl

/-- C2: whenever a ThermostatAgent handles a Request whose content contains
the key `set_temperature` with value `v`, it sets `target_temp` to `v` and
sends exactly one Response to the original sender with content
`{temperature_set: true, new_target: v}`. -/
theorem set_temperature_request_reply (st : ThermoState) (m : Message) (v : ℚ)
    (ht : m.message_type = MessageType.request)
    (hc : m.content.lookup "set_temperature" = some (Value.num v)) :
    (thermoHandleMessage st m).1.target_temp = v ∧
    (thermoHandleMessage st m).2 =
      [{ recipient := m.sender, message_type := MessageType.response,
         content := [("temperature_set", Value.bool true),
                     ("new_target", Value.num v)] }] := by
  rw [thermoHandleMessage_set_eq st m (Value.num v) ht hc]
  exact ⟨rfl, rfl⟩

/-- Witness for C2: the concrete `{set_temperature: 68}` request of the
spec's scenario, sent to the freshly constructed thermostat. -/
theorem set_temperature_request_reply_witness :
    ({ sender := "User", recipient := "Thermostat",
       message_type := MessageType.request,
       content := [("set_temperature", Value.num 68)], timestamp := 0,
       message_id := "m1" } : Message).message_type = MessageType.request ∧
    ({ sender := "User", recipient := "Thermostat",
       message_type := MessageType.request,
       content := [("set_temperature", Value.num 68)], timestamp := 0,
       message_id := "m1" } : Message).content.lookup "set_temperature"
      = some (Value.num 68) ∧
    ((thermoHandleMessage initThermostat
      { sender := "User", recipient := "Thermostat",
        message_type := MessageType.request,
        content := [("set_temperature", Value.num 68)], timestamp := 0,
        message_id := "m1" }).1.target_temp = 68 ∧
     (thermoHandleMessage initThermostat
      { sender := "User", recipient := "Thermostat",
        message_type := MessageType.request,
        content := [("set_temperature", Value.num 68)], timestamp := 0,
        message_id := "m1" }).2 =
      [{ recipient := "User", message_type := MessageType.response,
         content := [("temperature_set", Value.bool true),
                     ("new_target", Value.num 68)] }]) :=
  ⟨rfl, by decide,
   set_temperature_request_reply initThermostat
     { sender := "User", recipient := "Thermostat",
       message_type := MessageType.request,
       content := [("set_temperature", Value.num 68)], timestamp := 0,
       message_id := "m1" } 68 rfl (by decide)⟩

/-- A tick taken while already heating, with the temperature still more
than 1 below target, changes no flag and emits no broadcast. -/
theorem thermoUpdateStatus_already_heating (st : ThermoState) (δ : ℚ)
    (hh : st.heating = true) (hd : tempDiff st δ > 1) :
    (thermoUpdateStatus st δ).2 = [] := by
  have n1 : ¬(tempDiff st δ > 1 ∧ st.heating = false) := by
    rintro ⟨-, hfalse⟩
    rw [hh] at hfalse
    exact Bool.noConfusion hfalse
  have n2 : ¬(tempDiff st δ < -1 ∧ st.cooling = false) := by
    rintro ⟨hlt, -⟩
    linarith
  have n3 : ¬(|tempDiff st δ| < 1/2) := by
    intro habs
    have := le_abs_self (tempDiff st δ)
    linarith
  unfold thermoUpdateStatus
  rw [if_neg n1, if_neg n2, if_neg n3]

/-- Computation of the heating-started branch of a tick. -/
theorem thermoUpdateStatus_starts_heating (st : ThermoState) (δ : ℚ)
    (h0 : st.heating = false) (h1 : tempDiff st δ > 1) :
    thermoUpdateStatus st δ =
      ({ st with current_temp := thermoNewCurrent st δ, heating := true,
                 cooling := false,
                 status := thermoSnapshot (thermoNewCurrent st δ) st.target_temp
                   true false st.energy_efficiency_mode },
       [(MessageType.status_update,
         [("heating_started", Value.bool true),
          ("current_temp", Value.num (thermoNewCurrent st δ)),
          ("target_temp", Value.num st.target_temp)])]) := by
  unfold thermoUpdateStatus
  rw [if_pos ⟨h1, h0⟩]

/-- C3: a tick in which, after the temperature-simulation step, the target
exceeds the current temperature by more than 1.0 while heating is off,
turns heating on, cooling off, and emits exactly one StatusUpdate
broadcast with `heating_started = true`; a subsequent tick with heating
already on and the diff condition unchanged emits no further broadcast. -/
theorem thermostat_heating_hysteresis (st : ThermoState) (d1 d2 : ℚ)
    (h0 : st.heating = false)
    (h1 : tempDiff st d1 > 1)
    (h2 : tempDiff (thermoUpdateStatus st d1).1 d2 > 1) :
    (thermoUpdateStatus st d1).1.heating = true ∧
    (thermoUpdateStatus st d1).1.cooling = false ∧
    (thermoUpdateStatus st d1).2 =
      [(MessageType.status_update,
        [("heating_started", Value.bool true),
         ("current_temp", Value.num (thermoNewCurrent st d1)),
         ("target_temp", Value.num st.target_temp)])] ∧
    (thermoUpdateStatus (thermoUpdateStatus st d1).1 d2).2 = [] := by
  have e1 := thermoUpdateStatus_starts_heating st d1 h0 h1
  have hh : (thermoUpdateStatus st d1).1.heating = true := by rw [e1]
  refine ⟨hh, ?_, ?_, ?_⟩
  · rw [e1]
  · rw [e1]
  · exact thermoUpdateStatus_already_heating (thermoUpdateStatus st d1).1 d2 hh h2

/-- Witness for C3: thermostat at 72°F with target 80°F, first tick drift 0,
second tick heating delta 1/5 (within `uniform(0.1, 0.3)`). -/
theorem thermostat_heating_hysteresis_witness :
    ({ initThermostat with target_temp := 80 } : ThermoState).heating = false ∧
    tempDiff { initThermostat with target_temp := 80 } 0 > 1 ∧
    tempDiff (thermoUpdateStatus { initThermostat with target_temp := 80 } 0).1 (1/5) > 1 ∧
    ((thermoUpdateStatus { initThermostat with target_temp := 80 } 0).1.heating = true ∧
     (thermoUpdateStatus { initThermostat with target_temp := 80 } 0).1.cooling = false ∧
     (thermoUpdateStatus { initThermostat with target_temp := 80 } 0).2 =
       [(MessageType.status_update,
         [("heating_started", Value.bool true),
          ("current_temp",
           Value.num (thermoNewCurrent { initThermostat with target_temp := 80 } 0)),
          ("target_temp",
           Value.num ({ initThermostat with target_temp := 80 } : ThermoState).target_temp)])] ∧
     (thermoUpdateStatus
       (thermoUpdateStatus { initThermostat with target_temp := 80 } 0).1 (1/5)).2 = []) :=
  ⟨rfl, by norm_num [tempDiff, thermoNewCurrent, initThermostat],
   by norm_num [tempDiff, thermoNewCurrent, thermoUpdateStatus, initThermostat],
   thermostat_heating_hysteresis { initThermostat with target_temp := 80 } 0 (1/5)
     rfl (by norm_num [tempDiff, thermoNewCurrent, initThermostat])
     (by norm_num [tempDiff, thermoNewCurrent, thermoUpdateStatus, initThermostat])⟩

/-- Computation of the `energy_efficiency_mode` branch of `handle_message`. -/
theorem thermoHandleMessage_eff_eq (st : ThermoState) (m : Message) (v : Value)
    (ht : m.message_type = MessageType.request)
    (hs : m.content.lookup "set_temperature" = none)
    (he : m.content.lookup "energy_efficiency_mode" = some v) :
    thermoHandleMessage st m =
      ({ st with energy_efficiency_mode := v,
                 target_temp :=
                   if v.truthy then
                     if st.heating then st.target_temp - 2
                     else if st.cooling then st.target_temp + 2
                     else st.target_temp
                   else st.target_temp }, []) := by
  unfold thermoHandleMessage
  rw [if_pos ht, hs, he]

/-- C4 counterexample: the claim says the handler *toggles*
`energy_efficiency_mode` and only adjusts `target_temp` when the flag
*becomes* enabled.  Take a thermostat that is heating with the flag
already enabled (value `True`) and `target_temp = 70`, and deliver the
Request `{energy_efficiency_mode: True}`.  A toggle would flip the flag
to `False` and leave `target_temp` at 70; the code instead assigns the
flag (it stays `True`) and lowers `target_temp` again, to 68. -/
theorem energy_efficiency_toggle_cx :
    (thermoHandleMessage
      { current_temp := 72, target_temp := 70, heating := true, cooling := false,
        energy_efficiency_mode := Value.bool true, status := [] }
      { sender := "User", recipient := "Thermostat",
        message_type := MessageType.request,
        content := [("energy_efficiency_mode", Value.bool true)],
        timestamp := 0, message_id := "m2" }).1.energy_efficiency_mode
      = Value.bool true ∧
    (thermoHandleMessage
      { current_temp := 72, target_temp := 70, heating := true, cooling := false,
        energy_efficiency_mode := Value.bool true, status := [] }
      { sender := "User", recipient := "Thermostat",
        message_type := MessageType.request,
        content := [("energy_efficiency_mode", Value.bool true)],
        timestamp := 0, message_id := "m2" }).1.target_temp = 68 := by
  rw [thermoHandleMessage_eff_eq _ _ (Value.bool true) rfl (by decide) (by decide)]
  exact ⟨rfl, by norm_num [Value.truthy]⟩

/-- C4 as amended: whenever a ThermostatAgent handles a Request whose
content contains `energy_efficiency_mode` (and not `set_temperature`),
it *assigns* the message's value to the flag (it does not toggle), and
whenever the assigned value is truthy — regardless of the flag's previous
value — `target_temp` decreases by 2 if heating, else increases by 2 if
cooling; no Response is sent. -/
theorem energy_efficiency_mode_assignment (st : ThermoState) (m : Message) (v : Value)
    (ht : m.message_type = MessageType.request)
    (hs : m.content.lookup "set_temperature" = none)
    (he : m.content.lookup "energy_efficiency_mode" = some v) :
    (thermoHandleMessage st m).1.energy_efficiency_mode = v ∧
    (thermoHandleMessage st m).1.target_temp =
      (if v.truthy then
         if st.heating then st.target_temp - 2
         else if st.cooling then st.target_temp + 2
         else st.target_temp
       else st.target_temp) ∧
    (thermoHandleMessage st m).2 = [] := by
  rw [thermoHandleMessage_eff_eq st m v ht hs he]
  exact ⟨rfl, rfl, rfl⟩

/-- Witness for C4's amended theorem: enabling the mode while heating at
target 70 lowers the target to 68 and assigns the flag. -/
theorem energy_efficiency_mode_assignment_witness :
    ({ sender := "User", recipient := "Thermostat",
       message_type := MessageType.request,
       content := [("energy_efficiency_mode", Value.bool true)],
       timestamp := 0, message_id := "m2" } : Message).message_type
        = MessageType.request ∧
    ({ sender := "User", recipient := "Thermostat",
       message_type := MessageType.request,
       content := [("energy_efficiency_mode", Value.bool true)],
       timestamp := 0, message_id := "m2" } : Message).content.lookup
        "set_temperature" = none ∧
    ({ sender := "User", recipient := "Thermostat",
       message_type := MessageType.request,
       content := [("energy_efficiency_mode", Value.bool true)],
       timestamp := 0, message_id := "m2" } : Message).content.lookup
        "energy_efficiency_mode" = some (Value.bool true) ∧
    ((thermoHandleMessage
       { current_temp := 72, target_temp := 70, heating := true, cooling := false,
         energy_efficiency_mode := Value.bool false, status := [] }
       { sender := "User", recipient := "Thermostat",
         message_type := MessageType.request,
         content := [("energy_efficiency_mode", Value.bool true)],
         timestamp := 0, message_id := "m2" }).1.energy_efficiency_mode
        = Value.bool true ∧
     (thermoHandleMessage
       { current_temp := 72, target_temp := 70, heating := true, cooling := false,
         energy_efficiency_mode := Value.bool false, status := [] }
       { sender := "User", recipient := "Thermostat",
         message_type := MessageType.request,
         content := [("energy_efficiency_mode", Value.bool true)],
         timestamp := 0, message_id := "m2" }).1.target_temp =
       (if (Value.bool true).truthy then
          if ({ current_temp := 72, target_temp := 70, heating := true,
                cooling := false, energy_efficiency_mode := Value.bool false,
                status := [] } : ThermoState).heating then
            ({ current_temp := 72, target_temp := 70, heating := true,
               cooling := false, energy_efficiency_mode := Value.bool false,
               status := [] } : ThermoState).target_temp - 2
          else if ({ current_temp := 72, target_temp := 70, heating := true,
                     cooling := false, energy_efficiency_mode := Value.bool false,
                     status := [] } : ThermoState).cooling then
            ({ current_temp := 72, target_temp := 70, heating := true,
               cooling := false, energy_efficiency_mode := Value.bool false,
               status := [] } : ThermoState).target_temp + 2
          else
            ({ current_temp := 72, target_temp := 70, heating := true,
               cooling := false, energy_efficiency_mode := Value.bool false,
               status := [] } : ThermoState).target_temp
        else
          ({ current_temp := 72, target_temp := 70, heating := true,
             cooling := false, energy_efficiency_mode := Value.bool false,
             status := [] } : ThermoState).target_temp) ∧
     (thermoHandleMessage
       { current_temp := 72, target_temp := 70, heating := true, cooling := false,
         energy_efficiency_mode := Value.bool false, status := [] }
       { sender := "User", recipient := "Thermostat",
         message_type := MessageType.request,
         content := [("energy_efficiency_mode", Value.bool true)],
         timestamp := 0, message_id := "m2" }).2 = []) :=
  ⟨rfl, by decide, by decide,
   energy_efficiency_mode_assignment
     { current_temp := 72, target_temp := 70, heating := true, cooling := false,
       energy_efficiency_mode := Value.bool false, status := [] }
     { sender := "User", recipient := "Thermostat",
       message_type := MessageType.request,
       content := [("energy_efficiency_mode", Value.bool true)],
       timestamp := 0, message_id := "m2" }
     (Value.bool true) rfl (by decide) (by decide)⟩

/-- C5 counterexample: the claim says `peak_hours` is false at wall-clock
hour 20 (half-open interval `[16, 20)`), but the source's test is
`16 <= current_hour <= 20`, inclusive: a tick at hour 20 sets
`peak_hours = true`. -/
theorem peak_hours_hour20_cx :
    (energyUpdateStatus initEnergy 20 none).1.peak_hours = true := by
  rfl

/-- C5 as amended: on every EnergyAgent tick, `peak_hours` is set to true
exactly for wall-clock hours in the closed interval `[16, 20]` — true for
hours 16 through 20 inclusive, false elsewhere. -/
theorem peak_hours_inclusive_range (st : EnergyState) (hour : ℕ)
    (thermoStatus : Option Content) :
    (energyUpdateStatus st hour thermoStatus).1.peak_hours
      = decide (16 ≤ hour ∧ hour ≤ 20) := by
  rfl

/-- Dict assignment followed by lookup of the same key. -/
theorem lookup_setKey (l : List (String × ℚ)) (k : String) (v : ℚ) :
    (setKey l k v).lookup k = some v := by
  induction l with
  | nil => simp [setKey, List.lookup]
  | cons p rest ih =>
    obtain ⟨k', v'⟩ := p
    by_cases h : k' = k
    · simp [setKey, h, List.lookup]
    · simp only [setKey, h, if_false, List.lookup]
      have : (k == k') = false := by
        simp [Ne.symm h]
      rw [this]
      exact ih

/-- The computed consumption is one of 5, 17 or 20 units. -/
theorem consumptionOf_cases (ts : Option Content) :
    consumptionOf ts = 5 ∨ consumptionOf ts = 17 ∨ consumptionOf ts = 20 := by
  cases ts with
  | none => left; norm_num [consumptionOf]
  | some c =>
    by_cases hh : statusShows c "heating"
    · right; right; norm_num [consumptionOf, hh]
    · by_cases hc : statusShows c "cooling"
      · right; left; norm_num [consumptionOf, hh, hc]
      · left; norm_num [consumptionOf, hh, hc]

/-- The computed consumption is nonnegative. -/
theorem consumptionOf_nonneg (ts : Option Content) : 0 ≤ consumptionOf ts := by
  rcases consumptionOf_cases ts with h | h | h <;> rw [h] <;> norm_num

/-- One energy tick never decreases `total_consumption`. -/
theorem energyUpdateStatus_total_mono (st : EnergyState) (hour : ℕ)
    (ts : Option Content) :
    st.total_consumption ≤ (energyUpdateStatus st hour ts).1.total_consumption := by
  show st.total_consumption ≤ st.total_consumption + consumptionOf ts / 60
  have := consumptionOf_nonneg ts
  linarith

/-- A whole energy run never decreases `total_consumption`. -/
theorem energyRun_total_mono (st : EnergyState)
    (inputs : List (ℕ × Option Content)) :
    st.total_consumption ≤ (energyRun st inputs).1.total_consumption := by
  induction inputs generalizing st with
  | nil => exact le_refl _
  | cons p rest ih =>
    obtain ⟨hour, ts⟩ := p
    calc st.total_consumption
        ≤ (energyUpdateStatus st hour ts).1.total_consumption :=
          energyUpdateStatus_total_mono st hour ts
      _ ≤ (energyRun (energyUpdateStatus st hour ts).1 rest).1.total_consumption :=
          ih (energyUpdateStatus st hour ts).1
      _ = (energyRun st ((hour, ts) :: rest)).1.total_consumption := rfl

/-- C6: on every EnergyAgent tick the computed consumption is 5.0 plus 15.0
if the Thermostat's last published snapshot shows heating, else plus 12.0
if it shows cooling, else plus 0; `total_consumption` increases by exactly
`consumption / 60` (hence is monotonically non-decreasing across a run),
and `appliance_usage["hvac"]` is set to `consumption - 5.0`. -/
theorem energy_consumption_accumulation (st : EnergyState) (hour : ℕ)
    (ts : Option Content) (inputs : List (ℕ × Option Content)) :
    consumptionOf ts =
      5 + (match ts with
           | none => 0
           | some c =>
             if statusShows c "heating" then 15
             else if statusShows c "cooling" then 12
             else 0) ∧
    (energyUpdateStatus st hour ts).1.total_consumption
      = st.total_consumption + consumptionOf ts / 60 ∧
    st.total_consumption ≤ (energyUpdateStatus st hour ts).1.total_consumption ∧
    ((energyUpdateStatus st hour ts).1.appliance_usage).lookup "hvac"
      = some (consumptionOf ts - 5) ∧
    st.total_consumption ≤ (energyRun st inputs).1.total_consumption :=
  ⟨rfl, rfl, energyUpdateStatus_total_mono st hour ts,
   lookup_setKey st.appliance_usage "hvac" (consumptionOf ts - 5),
   energyRun_total_mono st inputs⟩

/-- With the sticky flag already set, one tick emits nothing and keeps it. -/
theorem energyUpdateStatus_sticky_tick (st : EnergyState) (hour : ℕ)
    (ts : Option Content) (h : st.energy_saving_mode = true) :
    (energyUpdateStatus st hour ts).2 = [] ∧
    (energyUpdateStatus st hour ts).1.energy_saving_mode = true := by
  have ht : energyTrigger st hour ts = false := by
    simp [energyTrigger, h]
  constructor
  · show (if energyTrigger st hour ts then _ else []) = []
    rw [ht]
    rfl
  · show (if energyTrigger st hour ts then true else st.energy_saving_mode) = true
    rw [ht, h]
    rfl

/-- With the sticky flag already set, a whole run emits nothing and keeps it. -/
theorem energyRun_sticky (st : EnergyState)
    (inputs : List (ℕ × Option Content)) (h : st.energy_saving_mode = true) :
    (energyRun st inputs).2 = [] ∧
    (energyRun st inputs).1.energy_saving_mode = true := by
  induction inputs generalizing st with
  | nil => exact ⟨rfl, h⟩
  | cons p rest ih =>
    obtain ⟨hour, ts⟩ := p
    obtain ⟨h1, h2⟩ := energyUpdateStatus_sticky_tick st hour ts h
    obtain ⟨h3, h4⟩ := ih (energyUpdateStatus st hour ts).1 h2
    refine ⟨?_, h4⟩
    show (energyUpdateStatus st hour ts).2
        ++ (energyRun (energyUpdateStatus st hour ts).1 rest).2 = []
    rw [h1, h3]
    rfl

/-- C7: `energy_saving_mode` transitions from false to true at most once.
The new flag equals the old one or-ed with the trigger (so it can only go
from false to true, and once true it stays true).  The tick's broadcasts
are exactly one Coordination message with `energy_saving_request = true`
when `peak_hours`, `consumption > 20.0` and the flag still false hold, and
nothing otherwise; and from any state with the flag already true, a whole
run emits no Coordination broadcast at all and keeps the flag true. -/
theorem energy_saving_mode_sticky (st : EnergyState) (hour : ℕ)
    (ts : Option Content) (inputs : List (ℕ × Option Content)) :
    (energyUpdateStatus st hour ts).1.energy_saving_mode
      = (st.energy_saving_mode || energyTrigger st hour ts) ∧
    (energyUpdateStatus st hour ts).2
      = (if st.energy_saving_mode = false ∧ 16 ≤ hour ∧ hour ≤ 20
            ∧ consumptionOf ts > 20
         then [(MessageType.coordination, energySavingContent (consumptionOf ts))]
         else []) ∧
    (energyRun { st with energy_saving_mode := true } inputs).2 = [] ∧
    (energyRun { st with energy_saving_mode := true } inputs).1.energy_saving_mode
      = true := by
  obtain ⟨h3, h4⟩ := energyRun_sticky { st with energy_saving_mode := true } inputs rfl
  refine ⟨?_, ?_, h3, h4⟩
  · show (if energyTrigger st hour ts then true else st.energy_saving_mode)
        = (st.energy_saving_mode || energyTrigger st hour ts)
    cases htr : energyTrigger st hour ts <;>
      cases hm : st.energy_saving_mode <;> rfl
  · show (if energyTrigger st hour ts then
            [(MessageType.coordination, energySavingContent (consumptionOf ts))]
          else []) = _
    by_cases hc : st.energy_saving_mode = false ∧ 16 ≤ hour ∧ hour ≤ 20
        ∧ consumptionOf ts > 20
    · rw [if_pos hc]
      have htr : energyTrigger st hour ts = true := by
        simp [energyTrigger, peakHours, hc.1, hc.2.1, hc.2.2.1, hc.2.2.2]
      rw [htr]
      rfl
    · rw [if_neg hc]
      have htr : energyTrigger st hour ts = false := by
        cases hb : energyTrigger st hour ts
        · rfl
        · exfalso
          apply hc
          simp only [energyTrigger, peakHours, Bool.and_eq_true, Bool.not_eq_true',
            decide_eq_true_eq] at hb
          exact ⟨hb.2, hb.1.1.1, hb.1.1.2, hb.1.2⟩
      rw [htr]
      rfl

/-- C8 counterexample: the claim says a Request naming no implemented
operation is answered with a Response carrying an `UnsupportedRequest`
error payload.  The handler's `if`/`elif` chain has no `else` branch:
handling the Request `{unknown_operation: 1}` sends nothing at all and
leaves the state unchanged, so no error Response exists. -/
theorem unsupported_request_no_reply_cx :
    thermoHandleMessage initThermostat
      { sender := "User", recipient := "Thermostat",
        message_type := MessageType.request,
        content := [("unknown_operation", Value.num 1)],
        timestamp := 0, message_id := "m4" }
      = (initThermostat, []) := by
  unfold thermoHandleMessage
  rw [if_pos rfl]
  have h1 : (List.lookup "set_temperature"
      ([("unknown_operation", Value.num 1)] : Content)) = none := by decide
  have h2 : (List.lookup "energy_efficiency_mode"
      ([("unknown_operation", Value.num 1)] : Content)) = none := by decide
  rw [h1, h2]

/-- C8 as amended: whenever an agent handles a Request whose content names
no operation it implements (for the ThermostatAgent: neither
`set_temperature` nor `energy_efficiency_mode`), the request is silently
ignored — the state is unchanged and no message (in particular no error
Response) is sent; no exception reaches the run loop. -/
theorem unsupported_request_ignored (st : ThermoState) (m : Message)
    (ht : m.message_type = MessageType.request)
    (hs : m.content.lookup "set_temperature" = none)
    (he : m.content.lookup "energy_efficiency_mode" = none) :
    thermoHandleMessage st m = (st, []) := by
  unfold thermoHandleMessage
  rw [if_pos ht, hs, he]

/-- Witness for C8's amended theorem. -/
theorem unsupported_request_ignored_witness :
    ({ sender := "User", recipient := "Thermostat",
       message_type := MessageType.request,
       content := [("unknown_operation", Value.num 1)],
       timestamp := 0, message_id := "m4" } : Message).message_type
        = MessageType.request ∧
    ({ sender := "User", recipient := "Thermostat",
       message_type := MessageType.request,
       content := [("unknown_operation", Value.num 1)],
       timestamp := 0, message_id := "m4" } : Message).content.lookup
        "set_temperature" = none ∧
    ({ sender := "User", recipient := "Thermostat",
       message_type := MessageType.request,
       content := [("unknown_operation", Value.num 1)],
       timestamp := 0, message_id := "m4" } : Message).content.lookup
        "energy_efficiency_mode" = none ∧
    thermoHandleMessage initThermostat
      { sender := "User", recipient := "Thermostat",
        message_type := MessageType.request,
        content := [("unknown_operation", Value.num 1)],
        timestamp := 0, message_id := "m4" }
      = (initThermostat, []) :=
  ⟨rfl, by decide, by decide,
   unsupported_request_ignored initThermostat
     { sender := "User", recipient := "Thermostat",
       message_type := MessageType.request,
       content := [("unknown_operation", Value.num 1)],
       timestamp := 0, message_id := "m4" }
     rfl (by decide) (by decide)⟩

/-- C9: when a handled Request contains both `set_temperature` and
`energy_efficiency_mode`, only the `set_temperature` branch of the
`if`/`elif` chain runs: the whole new state is the old one with only
`target_temp` replaced (so `energy_efficiency_mode` and its target
adjustment are untouched), and the single Response is sent. -/
theorem set_temperature_priority (st : ThermoState) (m : Message) (v : ℚ)
    (w : Value)
    (ht : m.message_type = MessageType.request)
    (hs : m.content.lookup "set_temperature" = some (Value.num v))
    (he : m.content.lookup "energy_efficiency_mode" = some w) :
    (thermoHandleMessage st m).1 = { st with target_temp := v } ∧
    (thermoHandleMessage st m).1.energy_efficiency_mode
      = st.energy_efficiency_mode ∧
    (thermoHandleMessage st m).2 =
      [{ recipient := m.sender, message_type := MessageType.response,
         content := [("temperature_set", Value.bool true),
                     ("new_target", Value.num v)] }] := by
  rw [thermoHandleMessage_set_eq st m (Value.num v) ht hs]
  exact ⟨rfl, rfl, rfl⟩

/-- Witness for C9: a Request carrying both keys, handled while heating
with the efficiency flag off; only the temperature branch runs. -/
theorem set_temperature_priority_witness :
    ({ sender := "User", recipient := "Thermostat",
       message_type := MessageType.request,
       content := [("set_temperature", Value.num 68),
                   ("energy_efficiency_mode", Value.bool true)],
       timestamp := 0, message_id := "m5" } : Message).message_type
        = MessageType.request ∧
    ({ sender := "User", recipient := "Thermostat",
       message_type := MessageType.request,
       content := [("set_temperature", Value.num 68),
                   ("energy_efficiency_mode", Value.bool true)],
       timestamp := 0, message_id := "m5" } : Message).content.lookup
        "set_temperature" = some (Value.num 68) ∧
    ({ sender := "User", recipient := "Thermostat",
       message_type := MessageType.request,
       content := [("set_temperature", Value.num 68),
                   ("energy_efficiency_mode", Value.bool true)],
       timestamp := 0, message_id := "m5" } : Message).content.lookup
        "energy_efficiency_mode" = some (Value.bool true) ∧
    ((thermoHandleMessage
       { current_temp := 72, target_temp := 70, heating := true, cooling := false,
         energy_efficiency_mode := Value.bool false, status := [] }
       { sender := "User", recipient := "Thermostat",
         message_type := MessageType.request,
         content := [("set_temperature", Value.num 68),
                     ("energy_efficiency_mode", Value.bool true)],
         timestamp := 0, message_id := "m5" }).1 =
       { ({ current_temp := 72, target_temp := 70, heating := true,
            cooling := false, energy_efficiency_mode := Value.bool false,
            status := [] } : ThermoState) with target_temp := 68 } ∧
     (thermoHandleMessage
       { current_temp := 72, target_temp := 70, heating := true, cooling := false,
         energy_efficiency_mode := Value.bool false, status := [] }
       { sender := "User", recipient := "Thermostat",
         message_type := MessageType.request,
         content := [("set_temperature", Value.num 68),
                     ("energy_efficiency_mode", Value.bool true)],
         timestamp := 0, message_id := "m5" }).1.energy_efficiency_mode
        = Value.bool false ∧
     (thermoHandleMessage
       { current_temp := 72, target_temp := 70, heating := true, cooling := false,
         energy_efficiency_mode := Value.bool false, status := [] }
       { sender := "User", recipient := "Thermostat",
         message_type := MessageType.request,
         content := [("set_temperature", Value.num 68),
                     ("energy_efficiency_mode", Value.bool true)],
         timestamp := 0, message_id := "m5" }).2 =
       [{ recipient := "User", message_type := MessageType.response,
          content := [("temperature_set", Value.bool true),
                      ("new_target", Value.num 68)] }]) :=
  ⟨rfl, by decide, by decide,
   set_temperature_priority
     { current_temp := 72, target_temp := 70, heating := true, cooling := false,
       energy_efficiency_mode := Value.bool false, status := [] }
     { sender := "User", recipient := "Thermostat",
       message_type := MessageType.request,
       content := [("set_temperature", Value.num 68),
                   ("energy_efficiency_mode", Value.bool true)],
       timestamp := 0, message_id := "m5" }
     68 (Value.bool true) rfl (by decide) (by decide)⟩

/-- C10: handling a `{set_temperature: v}` Request whose sender is not in
the registry still updates `target_temp` to `v` (no rollback), and the
Response reply is silently dropped by `send_message`: the registered
mailboxes are all unchanged and nothing is raised. -/
theorem unknown_sender_reply_dropped (st : ThermoState) (net : Network)
    (m : Message) (ts : ℚ) (mid : String) (v : ℚ)
    (ht : m.message_type = MessageType.request)
    (hc : m.content.lookup "set_temperature" = some (Value.num v))
    (hn : net.lookup m.sender = none) :
    (thermoHandleAndDeliver st net m ts mid).1.target_temp = v ∧
    (thermoHandleAndDeliver st net m ts mid).2 = net := by
  unfold thermoHandleAndDeliver
  rw [thermoHandleMessage_set_eq st m (Value.num v) ht hc]
  refine ⟨rfl, ?_⟩
  show send_message net "Thermostat" m.sender MessageType.response _ ts mid = net
  unfold send_message
  rw [hn]
  rfl

/-- Witness for C10: the registry knows only "Energy"; the Request comes
from the unregistered sender "Ghost". -/
theorem unknown_sender_reply_dropped_witness :
    ({ sender := "Ghost", recipient := "Thermostat",
       message_type := MessageType.request,
       content := [("set_temperature", Value.num 68)],
       timestamp := 0, message_id := "m6" } : Message).message_type
        = MessageType.request ∧
    ({ sender := "Ghost", recipient := "Thermostat",
       message_type := MessageType.request,
       content := [("set_temperature", Value.num 68)],
       timestamp := 0, message_id := "m6" } : Message).content.lookup
        "set_temperature" = some (Value.num 68) ∧
    (([("Energy", [])] : Network).lookup
       ({ sender := "Ghost", recipient := "Thermostat",
          message_type := MessageType.request,
          content := [("set_temperature", Value.num 68)],
          timestamp := 0, message_id := "m6" } : Message).sender) = none ∧
    ((thermoHandleAndDeliver initThermostat [("Energy", [])]
       { sender := "Ghost", recipient := "Thermostat",
         message_type := MessageType.request,
         content := [("set_temperature", Value.num 68)],
         timestamp := 0, message_id := "m6" } 0 "r1").1.target_temp = 68 ∧
     (thermoHandleAndDeliver initThermostat [("Energy", [])]
       { sender := "Ghost", recipient := "Thermostat",
         message_type := MessageType.request,
         content := [("set_temperature", Value.num 68)],
         timestamp := 0, message_id := "m6" } 0 "r1").2 = [("Energy", [])]) :=
  ⟨rfl, by decide, by decide,
   unknown_sender_reply_dropped initThermostat [("Energy", [])]
     { sender := "Ghost", recipient := "Thermostat",
       message_type := MessageType.request,
       content := [("set_temperature", Value.num 68)],
       timestamp := 0, message_id := "m6" }
     0 "r1" 68 rfl (by decide) (by decide)⟩

end SmartHome
